import Mathlib

/-!
# Verification of the sf-plugins-core flag helpers

A shallow embedding of the two source modules of the repository:

* `src/flags/orgFlags.ts` — org / dev-hub flag resolution
  (`maybeGetOrg`, `maybeGetHub`, `getOrgOrThrow`, `ensureDevHub`,
  `getDefaultHub`, `getHubOrThrow`, and the four exported flags);
* the API-version flag module — `validate`, `getDefaultFromConfig`,
  `orgApiVersionFlag`.

The external collaborators (the `@salesforce/core` SDK's `Org.create`,
`ConfigAggregator`, `sfdc.validateApiVersion`, `Lifecycle.emitWarning`)
are modelled as fields of explicit environment records; thrown JS errors
become `Except.error`, `undefined` becomes `none`, and warning emission
becomes an explicit warning list returned alongside the result.
JavaScript truthiness on `string | undefined` values (`!input`,
`if (apiVersionFromConfig)`) is modelled by `strFalsy`; nullish
coalescing (`??`) by `nullishOr`.
-/

set_option autoImplicit false

namespace SfPluginsCore

/-- JS falsiness of a `string | undefined` value: `undefined` and the
empty string are falsy, every other string is truthy. -/
def strFalsy : Option String → Bool
  | none => true
  | some s => s == ""

/-- JS nullish coalescing `a ?? b` on `string | undefined` values:
the left operand unless it is `undefined`/`null`. Note that the empty
string is NOT nullish (unlike `strFalsy`). -/
def nullishOr : Option String → Option String → Option String
  | some s, _ => some s
  | none, d => d

/-! ## Org flags (`src/flags/orgFlags.ts`) -/

/-- A connected org session handle, as produced by `Org.create`.
`username` models `org.getUsername()` (which may return `undefined`);
`isDevHub` models the result of `org.determineIfDevHubOrg()`. -/
structure Org where
  username : Option String
  isDevHub : Bool
  deriving DecidableEq, Repr

/-- Errors surfaced by the org-flag module: the three catalog errors it
creates itself, plus `other`, standing for an arbitrary error thrown by
the external session-creation call `Org.create`. -/
inductive Err where
  | NoDefaultEnv : Err
  | NoDefaultDevHub : Err
  | NotADevHub : Option String → Err
  | other : String → Err
  deriving DecidableEq, Repr

/-- The external world the org-flag module runs against:
`orgCreate input` models `await Org.create({ aliasOrUsername: input })`
(which either yields a connected handle or throws), and `targetDevHub`
models `config.getInfo(OrgConfigProperties.TARGET_DEV_HUB)?.value`. -/
structure OrgEnv where
  orgCreate : Option String → Except Err Org
  targetDevHub : Option String

/-- `maybeGetOrg(input?)`: try `Org.create({ aliasOrUsername: input })`;
on failure, return `undefined` when `!input` (input absent or empty),
otherwise rethrow the creation error. -/
def maybeGetOrg (env : OrgEnv) (input : Option String) : Except Err (Option Org) :=
  match env.orgCreate input with
  | .ok org => .ok (some org)
  | .error e => if strFalsy input then .ok none else .error e

/-- `getDefaultHub(throwIfNotFound)`: read the `target-dev-hub` config
value; when `throwIfNotFound` and the value is falsy, throw
`NoDefaultDevHub`, else return the value (possibly `undefined`). -/
def getDefaultHub (env : OrgEnv) (throwIfNotFound : Bool) : Except Err (Option String) :=
  let aliasOrUsername := env.targetDevHub
  if throwIfNotFound && strFalsy aliasOrUsername then .error .NoDefaultDevHub
  else .ok aliasOrUsername

/-- `ensureDevHub(org, aliasOrUsername?)`: return the org if
`determineIfDevHubOrg()` holds, else throw
`NotADevHub [aliasOrUsername ?? org.getUsername()]`. -/
def ensureDevHub (org : Org) (aliasOrUsername : Option String) : Except Err Org :=
  if org.isDevHub then .ok org
  else .error (.NotADevHub (nullishOr aliasOrUsername org.username))

/-- `maybeGetHub(input?)`:
`maybeGetOrg(input ?? await getDefaultHub(false))`, then, if an org was
resolved, `ensureDevHub(org, input ?? org.getUsername())`, else
`undefined`. -/
def maybeGetHub (env : OrgEnv) (input : Option String) : Except Err (Option Org) :=
  match getDefaultHub env false with
  | .error e => .error e
  | .ok dflt =>
    match maybeGetOrg env (nullishOr input dflt) with
    | .error e => .error e
    | .ok none => .ok none
    | .ok (some org) =>
      match ensureDevHub org (nullishOr input org.username) with
      | .error e => .error e
      | .ok hub => .ok (some hub)

/-- `getOrgOrThrow(input?)`: `maybeGetOrg(input)`, throwing
`NoDefaultEnv` when it resolved to `undefined`. -/
def getOrgOrThrow (env : OrgEnv) (input : Option String) : Except Err Org :=
  match maybeGetOrg env input with
  | .error e => .error e
  | .ok none => .error .NoDefaultEnv
  | .ok (some org) => .ok org

/-- `getHubOrThrow(aliasOrUsername?)`:
`resolved = aliasOrUsername ?? await getDefaultHub(true)`, then
`Org.create({ aliasOrUsername: resolved })` directly (no swallowing),
then `ensureDevHub(org, resolved)`. -/
def getHubOrThrow (env : OrgEnv) (aliasOrUsername : Option String) : Except Err Org :=
  match (match aliasOrUsername with
         | some s => Except.ok (some s)
         | none => getDefaultHub env true) with
  | .error e => .error e
  | .ok resolved =>
    match env.orgCreate resolved with
    | .error e => .error e
    | .ok org => ensureDevHub org resolved

/-- The shape of an exported org flag: `parse` receives the
user-supplied raw value, `defaultValue` models the `default` callback
(no user input), `defaultHelp` the `defaultHelp` callback. `α` is
`Org` for the required variants and `Option Org` for the optional
ones. -/
structure OrgFlagSpec (α : Type) where
  char : Char
  required : Bool
  parse : OrgEnv → Option String → Except Err α
  defaultValue : OrgEnv → Except Err α
  defaultHelp : OrgEnv → Except Err (Option String)

/-- `optionalOrgFlag`: parse/default via `maybeGetOrg`;
`defaultHelp` is `(await maybeGetOrg())?.getUsername()`. -/
def optionalOrgFlag : OrgFlagSpec (Option Org) where
  char := 'o'
  required := false
  parse := fun env input => maybeGetOrg env input
  defaultValue := fun env => maybeGetOrg env none
  defaultHelp := fun env => (maybeGetOrg env none).map (fun o => o.bind Org.username)

/-- `requiredOrgFlag`: parse/default via `getOrgOrThrow`. -/
def requiredOrgFlag : OrgFlagSpec Org where
  char := 'o'
  required := true
  parse := fun env input => getOrgOrThrow env input
  defaultValue := fun env => getOrgOrThrow env none
  defaultHelp := fun env => (getOrgOrThrow env none).map Org.username

/-- `requiredHubFlag`: parse/default via `getHubOrThrow`. -/
def requiredHubFlag : OrgFlagSpec Org where
  char := 'v'
  required := true
  parse := fun env input => getHubOrThrow env input
  defaultValue := fun env => getHubOrThrow env none
  defaultHelp := fun env => (getHubOrThrow env none).map Org.username

/-- `optionalHubFlag`: parse/default via `maybeGetHub`. -/
def optionalHubFlag : OrgFlagSpec (Option Org) where
  char := 'v'
  required := false
  parse := fun env input => maybeGetHub env input
  defaultValue := fun env => maybeGetHub env none
  defaultHelp := fun env => (maybeGetHub env none).map (fun o => o.bind Org.username)

/-! ## API version flag (the second source module) -/

/-- versions below this are retired -/
def minValidApiVersion : Nat := 21

/-- this and all un-retired versions below it are deprecated -/
def maxDeprecated : Nat := 30

def maxDeprecatedUrl : String := "https://help.salesforce.com/s/articleView?id=000354473&type=1;"

/-- Errors surfaced by the API-version flag, with their message
parameters: the rejected input for `InvalidApiVersion`, the minimum
valid version for `RetiredApiVersion`. -/
inductive ApiErr where
  | InvalidApiVersion : String → ApiErr
  | RetiredApiVersion : Nat → ApiErr
  deriving DecidableEq, Repr

/-- Warnings emitted through `Lifecycle.emitWarning`, with the message
parameters the code passes to the catalog. -/
inductive Warning where
  | deprecated : Nat → String → Warning
  | overrideWarning : String → Warning
  deriving DecidableEq, Repr

/-- JS `parseInt(s, 10)`: skip leading whitespace, read an optional
sign and then the longest prefix of decimal digits; `none` models the
`NaN` result when no digit is found. -/
def parseIntDec (s : String) : Option Int :=
  let cs := s.data.dropWhile Char.isWhitespace
  let signed : Int × List Char :=
    match cs with
    | '-' :: r => (-1, r)
    | '+' :: r => (1, r)
    | r => (1, r)
  let ds := signed.2.takeWhile Char.isDigit
  if ds.isEmpty then none
  else some (signed.1 * (ds.foldl (fun a c => a * 10 + (c.toNat - 48)) 0 : Nat))

/-- The external world of the API-version module:
`validateApiVersion` models `sfdc.validateApiVersion` (the SDK's format
check, out of scope here), `apiVersionFromConfig` models
`config.getInfo(OrgConfigProperties.ORG_API_VERSION)?.value`. -/
structure ApiEnv where
  validateApiVersion : String → Bool
  apiVersionFromConfig : Option String

/-- `validate(input)`: fail `InvalidApiVersion [input]` when the format
check rejects; `requestedVersion = parseInt(input, 10)`; fail
`RetiredApiVersion [minValidApiVersion]` when below the minimum; emit
the deprecation warning when at most `maxDeprecated`; return the input
unchanged. A `NaN` from `parseInt` fails both `<` and `≤` comparisons,
as in JS. The second component collects the warnings emitted. -/
def validate (env : ApiEnv) (input : String) : Except ApiErr String × List Warning :=
  if !env.validateApiVersion input then
    (.error (.InvalidApiVersion input), [])
  else
    match parseIntDec input with
    | none => (.ok input, [])
    | some requestedVersion =>
      if requestedVersion < (minValidApiVersion : Int) then
        (.error (.RetiredApiVersion minValidApiVersion), [])
      else if requestedVersion ≤ (maxDeprecated : Int) then
        (.ok input, [.deprecated maxDeprecated maxDeprecatedUrl])
      else
        (.ok input, [])

/-- `getDefaultFromConfig()`: read the configured API version; when it
is truthy, emit the override warning (carrying the configured value)
and then run it through `validate`; otherwise return `undefined`. The
override warning is emitted before `validate` runs, so it survives a
validation failure. -/
def getDefaultFromConfig (env : ApiEnv) : Except ApiErr (Option String) × List Warning :=
  match env.apiVersionFromConfig with
  | none => (.ok none, [])
  | some v =>
    if v == "" then (.ok none, [])
    else
      match validate env v with
      | (.ok r, w) => (.ok (some r), .overrideWarning v :: w)
      | (.error e, w) => (.error e, .overrideWarning v :: w)

/-- The shape of the exported `orgApiVersionFlag`. -/
structure ApiFlagSpec where
  parse : ApiEnv → String → Except ApiErr String × List Warning
  defaultValue : ApiEnv → Except ApiErr (Option String) × List Warning

/-- `orgApiVersionFlag`: parse via `validate`, default via
`getDefaultFromConfig`. -/
def orgApiVersionFlag : ApiFlagSpec where
  parse := fun env input => validate env input
  defaultValue := fun env => getDefaultFromConfig env

/-! ## Theorems about the API-version flag -/

/-- A concrete format check used to instantiate witnesses: accepts
exactly the classic `NN.0` shapes exercised by the spec's examples. -/
def sampleFormatCheck (s : String) : Bool :=
  s == "10.0" || s == "25.0" || s == "45.0" || s == "30.0" || s == "21.0"

/-- C6: for every well-formed API version string whose numeric value is
below the minimum supported version, `parse` fails with
`RetiredApiVersion`, carrying the minimum version 21 as its message
parameter. -/
theorem retired_api_version_below_min (env : ApiEnv) (s : String) (v : Int)
    (hfmt : env.validateApiVersion s = true)
    (hparse : parseIntDec s = some v)
    (hlt : v < (minValidApiVersion : Int)) :
    orgApiVersionFlag.parse env s
      = (.error (.RetiredApiVersion minValidApiVersion), []) ∧
    minValidApiVersion = 21 := by
  refine ⟨?_, rfl⟩
  simp [orgApiVersionFlag, validate, hfmt, hparse, hlt]

/-- Witness for C6 at the spec's example input `"10.0"`. -/
theorem retired_api_version_below_min_witness :
    orgApiVersionFlag.parse ⟨sampleFormatCheck, none⟩ "10.0"
      = (.error (.RetiredApiVersion minValidApiVersion), []) ∧
    minValidApiVersion = 21 :=
  retired_api_version_below_min ⟨sampleFormatCheck, none⟩ "10.0" 10
    (by decide) (by decide) (by decide)

/-- C7: for every input string that fails the format check, `parse`
fails with `InvalidApiVersion` carrying the input, with no warning and
no range error — the statement holds for all such strings regardless of
their numeric value, so the failure precedes any range check. -/
theorem invalid_api_version_on_malformed (env : ApiEnv) (s : String)
    (hfmt : env.validateApiVersion s = false) :
    orgApiVersionFlag.parse env s = (.error (.InvalidApiVersion s), []) := by
  simp [orgApiVersionFlag, validate, hfmt]

/-- Witness for C7 at the spec's example input `"abc"` (and at `"7"`,
whose numeric value is below the minimum yet which still fails with
`InvalidApiVersion`, not `RetiredApiVersion`). -/
theorem invalid_api_version_on_malformed_witness :
    orgApiVersionFlag.parse ⟨sampleFormatCheck, none⟩ "abc"
      = (.error (.InvalidApiVersion "abc"), []) ∧
    orgApiVersionFlag.parse ⟨sampleFormatCheck, none⟩ "7"
      = (.error (.InvalidApiVersion "7"), []) :=
  ⟨invalid_api_version_on_malformed ⟨sampleFormatCheck, none⟩ "abc" (by decide),
   invalid_api_version_on_malformed ⟨sampleFormatCheck, none⟩ "7" (by decide)⟩

/-- C8: for every well-formed version with numeric value between the
minimum and the deprecation threshold (inclusive), `parse` succeeds
with the input unchanged and emits the deprecation warning exactly once
(carrying the threshold 30 and the fixed URL); above the threshold it
succeeds with no warning. -/
theorem deprecated_warning_in_range (env : ApiEnv) (s : String) (v : Int)
    (hfmt : env.validateApiVersion s = true)
    (hparse : parseIntDec s = some v)
    (hge : (minValidApiVersion : Int) ≤ v) :
    (v ≤ (maxDeprecated : Int) →
      orgApiVersionFlag.parse env s
        = (.ok s, [.deprecated maxDeprecated maxDeprecatedUrl])) ∧
    ((maxDeprecated : Int) < v →
      orgApiVersionFlag.parse env s = (.ok s, [])) ∧
    maxDeprecated = 30 := by
  refine ⟨fun hle => ?_, fun hgt => ?_, rfl⟩
  · simp [orgApiVersionFlag, validate, hfmt, hparse, hle, not_lt.mpr hge]
  · simp [orgApiVersionFlag, validate, hfmt, hparse, not_lt.mpr hge, not_le.mpr hgt]

/-- Witness for C8 at the spec's examples `"25.0"` (deprecated, one
warning) and `"45.0"` (no warning). -/
theorem deprecated_warning_in_range_witness :
    orgApiVersionFlag.parse ⟨sampleFormatCheck, none⟩ "25.0"
      = (.ok "25.0", [.deprecated maxDeprecated maxDeprecatedUrl]) ∧
    orgApiVersionFlag.parse ⟨sampleFormatCheck, none⟩ "45.0" = (.ok "45.0", []) :=
  ⟨(deprecated_warning_in_range ⟨sampleFormatCheck, none⟩ "25.0" 25
      (by decide) (by decide) (by decide)).1 (by decide),
   (deprecated_warning_in_range ⟨sampleFormatCheck, none⟩ "45.0" 45
      (by decide) (by decide) (by decide)).2.1 (by decide)⟩

/-- C9: `default()` returns `undefined` (with no warning) when no API
version is configured; when a non-empty one is configured it emits the
override warning first and then behaves exactly as `parse` on the
configured value (same outcome, `some`-wrapped on success, same
trailing warnings). -/
theorem default_config_matches_parse (env : ApiEnv) :
    (env.apiVersionFromConfig = none →
      orgApiVersionFlag.defaultValue env = (.ok none, [])) ∧
    (∀ s, env.apiVersionFromConfig = some s → s ≠ "" →
      (orgApiVersionFlag.defaultValue env).1 = (orgApiVersionFlag.parse env s).1.map some ∧
      (orgApiVersionFlag.defaultValue env).2
        = Warning.overrideWarning s :: (orgApiVersionFlag.parse env s).2) := by
  constructor
  · intro h
    simp [orgApiVersionFlag, getDefaultFromConfig, h]
  · intro s hs hne
    simp only [orgApiVersionFlag, getDefaultFromConfig, hs]
    rw [if_neg (by simpa using hne)]
    rcases hval : validate env s with ⟨r, w⟩
    cases r <;> simp [hval, Except.map]

/-- Witness for C9: no configured value, and the configured value
`"25.0"` (override warning followed by the deprecation warning). -/
theorem default_config_matches_parse_witness :
    orgApiVersionFlag.defaultValue ⟨sampleFormatCheck, none⟩ = (.ok none, []) ∧
    (orgApiVersionFlag.defaultValue ⟨sampleFormatCheck, some "25.0"⟩).1
      = (orgApiVersionFlag.parse ⟨sampleFormatCheck, some "25.0"⟩ "25.0").1.map some ∧
    (orgApiVersionFlag.defaultValue ⟨sampleFormatCheck, some "25.0"⟩).2
      = Warning.overrideWarning "25.0"
          :: (orgApiVersionFlag.parse ⟨sampleFormatCheck, some "25.0"⟩ "25.0").2 :=
  ⟨(default_config_matches_parse ⟨sampleFormatCheck, none⟩).1 rfl,
   (default_config_matches_parse ⟨sampleFormatCheck, some "25.0"⟩).2 "25.0" rfl (by decide)⟩

/-! ## Theorems about the org flags -/

/-- Re-coalescing with the same fallback changes nothing:
`(a ?? b) ?? b = a ?? b`. -/
theorem nullishOr_nullishOr (a b : Option String) :
    nullishOr (nullishOr a b) b = nullishOr a b := by
  cases a <;> cases b <;> rfl

/-- An environment whose session creation always fails (no org is
resolvable at all) while a dev-hub default is configured. -/
def envAllFail : OrgEnv where
  orgCreate := fun _ => .error (.other "NamedOrgNotFound")
  targetDevHub := some "configuredHub"

/-- An environment with no dev-hub default whose session creation
always fails. -/
def envBare : OrgEnv where
  orgCreate := fun _ => .error (.other "AuthInfoNotFound")
  targetDevHub := none

/-- C10: in `maybeGetOrg` (the parse of `optionalOrgFlag`), an empty
string is treated like an absent input: the swallow branch tests
`!input`, so a creation failure for `""` resolves to `undefined`
instead of rethrowing, exactly as for `undefined` input. -/
theorem maybeGetOrg_empty_string_swallows (env : OrgEnv) (e e2 : Err)
    (h : env.orgCreate (some "") = .error e)
    (h2 : env.orgCreate none = .error e2) :
    optionalOrgFlag.parse env (some "") = .ok none ∧
    optionalOrgFlag.parse env none = .ok none := by
  constructor <;> simp [optionalOrgFlag, maybeGetOrg, h, h2, strFalsy]

/-- Witness for C10 in the always-failing environment. -/
theorem maybeGetOrg_empty_string_swallows_witness :
    optionalOrgFlag.parse envAllFail (some "") = .ok none ∧
    optionalOrgFlag.parse envAllFail none = .ok none :=
  maybeGetOrg_empty_string_swallows envAllFail
    (.other "NamedOrgNotFound") (.other "NamedOrgNotFound") rfl rfl

/-- Counterexample to C1: with an explicitly supplied identifier that
cannot be resolved, `optionalOrgFlag`'s parse rethrows the creation
failure rather than resolving to no value; likewise, `optionalHubFlag`'s
default resolution rethrows when the identifier taken from the
configured dev-hub default cannot be resolved. -/
theorem optional_flag_explicit_failure_throws_cex :
    optionalOrgFlag.parse envAllFail (some "badAlias")
      = .error (.other "NamedOrgNotFound") ∧
    optionalHubFlag.defaultValue envAllFail = .error (.other "NamedOrgNotFound") := by
  constructor <;> rfl

/-- C1 (amended): for the optional variants, an unresolvable target
resolves to no value exactly when the identifier handed to session
creation is absent or empty (for the hub variant: the explicit input,
else the configured dev-hub default); a truthy unresolvable identifier
— explicitly supplied, or taken from the configured dev-hub default —
makes parse/default rethrow the creation failure. -/
theorem optional_flags_swallow_iff_falsy_target (env : OrgEnv)
    (input : Option String) (e e2 : Err)
    (h : env.orgCreate input = .error e)
    (h2 : env.orgCreate (nullishOr input env.targetDevHub) = .error e2) :
    optionalOrgFlag.parse env input
      = (if strFalsy input then .ok none else .error e) ∧
    optionalHubFlag.parse env input
      = (if strFalsy (nullishOr input env.targetDevHub) then .ok none else .error e2) := by
  constructor
  · by_cases hf : strFalsy input = true
    · simp [optionalOrgFlag, maybeGetOrg, h, hf]
    · simp only [Bool.not_eq_true] at hf
      simp [optionalOrgFlag, maybeGetOrg, h, hf]
  · by_cases hf : strFalsy (nullishOr input env.targetDevHub) = true
    · simp [optionalHubFlag, maybeGetHub, getDefaultHub, maybeGetOrg, h2, hf]
    · simp only [Bool.not_eq_true] at hf
      simp [optionalHubFlag, maybeGetHub, getDefaultHub, maybeGetOrg, h2, hf]

/-- Witness for the amended C1: absent input with no configured
default resolves to no value for both optional variants. -/
theorem optional_flags_swallow_iff_falsy_target_witness :
    optionalOrgFlag.parse envBare none = .ok none ∧
    optionalHubFlag.parse envBare none = .ok none := by
  have h := optional_flags_swallow_iff_falsy_target envBare none
    (.other "AuthInfoNotFound") (.other "AuthInfoNotFound") rfl rfl
  simpa using h

/-- Counterexample to C2: in the always-failing environment the
required org flag's default resolution surfaces `NoDefaultEnv`, not the
verbatim creation failure (refuting "propagated verbatim when the flag
is a required variant"), and the optional hub flag's default resolution
propagates the creation failure even though no identifier was supplied
(refuting "swallowed exactly when the target was optional and no
identifier was supplied"). -/
theorem creation_failure_propagation_cex :
    requiredOrgFlag.defaultValue envAllFail = .error Err.NoDefaultEnv ∧
    optionalHubFlag.defaultValue envAllFail = .error (Err.other "NamedOrgNotFound") := by
  constructor <;> rfl

/-- C2 (amended): a creation failure is propagated verbatim by
`maybeGetOrg` exactly when the identifier handed to `Org.create` is a
non-empty string; when it is absent or empty the failure is swallowed
to no value, which `getOrgOrThrow` then reports as `NoDefaultEnv`
(not verbatim); `getHubOrThrow` propagates creation failures for an
explicitly supplied identifier unconditionally. -/
theorem creation_failure_propagation (env : OrgEnv) (input : Option String) (e : Err)
    (h : env.orgCreate input = .error e) :
    (maybeGetOrg env input = .error e ↔ strFalsy input = false) ∧
    (strFalsy input = true →
      maybeGetOrg env input = .ok none ∧
      getOrgOrThrow env input = .error .NoDefaultEnv) ∧
    (∀ s, input = some s → getHubOrThrow env input = .error e) := by
  refine ⟨?_, fun hf => ?_, fun s hin => ?_⟩
  · by_cases hf : strFalsy input = true
    · simp [maybeGetOrg, h, hf]
    · simp only [Bool.not_eq_true] at hf
      simp [maybeGetOrg, h, hf]
  · constructor <;> simp [maybeGetOrg, getOrgOrThrow, h, hf]
  · subst hin
    simp [getHubOrThrow, h]

/-- Witness for the amended C2: an explicit truthy identifier
propagates, an absent identifier is swallowed and surfaced as
`NoDefaultEnv` by the required variant. -/
theorem creation_failure_propagation_witness :
    maybeGetOrg envBare (some "badAlias") = .error (Err.other "AuthInfoNotFound") ∧
    maybeGetOrg envBare none = .ok none ∧
    getOrgOrThrow envBare none = .error Err.NoDefaultEnv ∧
    getHubOrThrow envBare (some "badAlias") = .error (Err.other "AuthInfoNotFound") :=
  ⟨((creation_failure_propagation envBare (some "badAlias")
      (.other "AuthInfoNotFound") rfl).1).mpr rfl,
   ((creation_failure_propagation envBare none (.other "AuthInfoNotFound") rfl).2.1 rfl).1,
   ((creation_failure_propagation envBare none (.other "AuthInfoNotFound") rfl).2.1 rfl).2,
   (creation_failure_propagation envBare (some "badAlias")
      (.other "AuthInfoNotFound") rfl).2.2 "badAlias" rfl⟩

/-- C3: for the required org flag, when the identifier is absent (or
empty, hence falsy) and session creation for it fails — covering both
"no resolvable default" and "default-targeted org cannot be found",
which the SDK both signal as a creation failure — resolution fails with
`NoDefaultEnv`; the default callback is exactly parse on no input, so
the failure is never converted to no value. -/
theorem required_org_fails_noDefaultEnv (env : OrgEnv) (input : Option String) (e : Err)
    (hfalsy : strFalsy input = true)
    (h : env.orgCreate input = .error e) :
    requiredOrgFlag.parse env input = .error .NoDefaultEnv ∧
    requiredOrgFlag.defaultValue env = requiredOrgFlag.parse env none := by
  refine ⟨?_, rfl⟩
  simp [requiredOrgFlag, getOrgOrThrow, maybeGetOrg, h, hfalsy]

/-- Witness for C3 in the bare environment with no input. -/
theorem required_org_fails_noDefaultEnv_witness :
    requiredOrgFlag.parse envBare none = .error Err.NoDefaultEnv ∧
    requiredOrgFlag.defaultValue envBare = requiredOrgFlag.parse envBare none :=
  required_org_fails_noDefaultEnv envBare none (.other "AuthInfoNotFound") rfl rfl

/-- C4: for the required hub flag, no explicit input with a falsy
dev-hub default fails with `NoDefaultDevHub`; when an identifier is
available — supplied explicitly, or taken from a truthy configured
dev-hub default — and session creation for it fails, the creation
failure is propagated unchanged; the default callback is exactly parse
on no input. -/
theorem required_hub_default_and_propagation (env : OrgEnv) :
    (strFalsy env.targetDevHub = true →
      requiredHubFlag.parse env none = .error .NoDefaultDevHub) ∧
    (∀ s e, env.orgCreate (some s) = .error e →
      requiredHubFlag.parse env (some s) = .error e) ∧
    (∀ s e, env.targetDevHub = some s → s ≠ "" → env.orgCreate (some s) = .error e →
      requiredHubFlag.parse env none = .error e) ∧
    requiredHubFlag.defaultValue env = requiredHubFlag.parse env none := by
  refine ⟨fun hf => ?_, fun s e h => ?_, fun s e hcfg hne h => ?_, rfl⟩
  · simp [requiredHubFlag, getHubOrThrow, getDefaultHub, hf]
  · simp [requiredHubFlag, getHubOrThrow, h]
  · simp [requiredHubFlag, getHubOrThrow, getDefaultHub, hcfg, strFalsy, hne, h]

/-- Witness for C4: missing default fails `NoDefaultDevHub`; explicit
and default-sourced identifiers propagate the creation failure. -/
theorem required_hub_default_and_propagation_witness :
    requiredHubFlag.parse envBare none = .error Err.NoDefaultDevHub ∧
    requiredHubFlag.parse envBare (some "x") = .error (Err.other "AuthInfoNotFound") ∧
    requiredHubFlag.parse envAllFail none = .error (Err.other "NamedOrgNotFound") :=
  ⟨(required_hub_default_and_propagation envBare).1 rfl,
   (required_hub_default_and_propagation envBare).2.1 "x" (.other "AuthInfoNotFound") rfl,
   (required_hub_default_and_propagation envAllFail).2.2.1 "configuredHub"
      (.other "NamedOrgNotFound") rfl (by decide) rfl⟩

/-- A resolvable org handle that fails the dev-hub predicate. -/
def plainOrg : Org where
  username := some "user@example.com"
  isDevHub := false

/-- An environment that resolves every identifier to `plainOrg` and has
a dev-hub default configured. -/
def envPlainOrg : OrgEnv where
  orgCreate := fun _ => .ok plainOrg
  targetDevHub := some "configuredHub"

/-- C5: for both hub variants, a successfully resolved org that fails
the dev-hub predicate yields `NotADevHub`, and the error names the
resolved identifier: the supplied alias/username when there was one,
else for the optional variant the handle's username, and for the
required variant the identifier actually resolved (explicit input or
configured default). -/
theorem not_a_dev_hub_names_resolved_id (env : OrgEnv) (input : Option String) (org : Org)
    (hnothub : org.isDevHub = false) :
    (env.orgCreate (nullishOr input env.targetDevHub) = .ok org →
      optionalHubFlag.parse env input
        = .error (.NotADevHub (nullishOr input org.username))) ∧
    (∀ s, input = some s → env.orgCreate (some s) = .ok org →
      requiredHubFlag.parse env input = .error (.NotADevHub (some s))) ∧
    (∀ s, env.targetDevHub = some s → s ≠ "" → env.orgCreate (some s) = .ok org →
      requiredHubFlag.parse env none = .error (.NotADevHub (some s))) := by
  refine ⟨fun h => ?_, fun s hin h => ?_, fun s hcfg hne h => ?_⟩
  · simp [optionalHubFlag, maybeGetHub, getDefaultHub, maybeGetOrg, h, ensureDevHub,
      hnothub, nullishOr_nullishOr]
  · subst hin
    simp [requiredHubFlag, getHubOrThrow, h, ensureDevHub, hnothub, nullishOr]
  · simp [requiredHubFlag, getHubOrThrow, getDefaultHub, hcfg, strFalsy, hne, h,
      ensureDevHub, hnothub, nullishOr]

/-- Witness for C5: the error names the handle's username when nothing
was supplied (optional variant), the supplied alias (explicit input),
and the configured default (required variant with no input). -/
theorem not_a_dev_hub_names_resolved_id_witness :
    optionalHubFlag.parse envPlainOrg none
      = .error (.NotADevHub (some "user@example.com")) ∧
    requiredHubFlag.parse envPlainOrg (some "myHub")
      = .error (.NotADevHub (some "myHub")) ∧
    requiredHubFlag.parse envPlainOrg none
      = .error (.NotADevHub (some "configuredHub")) :=
  ⟨(not_a_dev_hub_names_resolved_id envPlainOrg none plainOrg rfl).1 rfl,
   (not_a_dev_hub_names_resolved_id envPlainOrg (some "myHub") plainOrg rfl).2.1
      "myHub" rfl rfl,
   (not_a_dev_hub_names_resolved_id envPlainOrg none plainOrg rfl).2.2
      "configuredHub" rfl (by decide) rfl⟩

end SfPluginsCore
